import Mathlib

/-!
Verification development for the dbally IQL evaluation-metrics slice.

The authoritative code is src/src/dbally_benchmark/iql/metrics.py; the
host-language parser (Python ast.parse), the MethodCallVisitor, the strict
IQL parser (IQLQuery.parse / IQLActions.parse) and the runner live outside
the provided sources and are modelled from the specification.
-/

set_option maxRecDepth 100000

namespace DballyIQL

/-- Modelled from the spec: literal argument values of the IQL surface
grammar and of the host expression language - strings (single- or
double-quoted), integer and floating-point numerals, and the two boolean
tokens.  A float literal keeps its raw source text. -/
inductive Lit where
| str (s : String)
| int (n : Int)
| float (raw : String)
| bool (b : Bool)
deriving DecidableEq

/-- Modelled from the spec: tokens of the IQL / host expression surface:
identifiers, literals, parentheses, commas, the boolean keywords and
newlines separating action statements. -/
inductive Tok where
| ident (s : String)
| lit (l : Lit)
| lparen
| rparen
| comma
| kwAnd
| kwOr
| kwNot
| newline
deriving DecidableEq

/-- First character of an identifier: an ASCII letter or underscore. -/
def isIdentStart (c : Char) : Bool :=
  (decide (97 ≤ c.toNat) && decide (c.toNat ≤ 122)) ||
  (decide (65 ≤ c.toNat) && decide (c.toNat ≤ 90)) || c = '_'

/-- An ASCII decimal digit. -/
def isDigitChar (c : Char) : Bool :=
  decide (48 ≤ c.toNat) && decide (c.toNat ≤ 57)

/-- Subsequent character of an identifier. -/
def isIdentChar (c : Char) : Bool :=
  isIdentStart c || isDigitChar c

/-- Numeric value of a list of decimal digit characters. -/
def digitsVal (cs : List Char) : Nat :=
  cs.foldl (fun n c => n * 10 + (c.toNat - 48)) 0

/-- Scan the body of a quoted string until the closing quote; fails on an
unterminated literal. -/
def scanString (q : Char) : List Char → Option (List Char × List Char)
| [] => none
| c :: cs =>
  if c = q then some ([], cs)
  else
    match scanString q cs with
    | some (s, rest) => some (c :: s, rest)
    | none => none

/-- Classify a completed identifier token: the keywords and boolean
literals of the grammar, otherwise a plain identifier. -/
def identTok (name : String) : Tok :=
  if name = "and" then Tok.kwAnd
  else if name = "or" then Tok.kwOr
  else if name = "not" then Tok.kwNot
  else if name = "True" then Tok.lit (Lit.bool true)
  else if name = "False" then Tok.lit (Lit.bool false)
  else Tok.ident name

/-- Modelled from the spec: fuel-driven tokenizer for the surface grammar.
Returns none (a syntax failure) on any character outside the token
alphabet or on an unterminated string literal. -/
def tokenizeAux : Nat → List Char → Option (List Tok)
| 0, _ => none
| _ + 1, [] => some []
| fuel + 1, c :: cs =>
  if c = ' ' || c = '\t' || c = '\r' then tokenizeAux fuel cs
  else if c = '\n' then
    (tokenizeAux fuel cs).map (fun ts => Tok.newline :: ts)
  else if c = '(' then
    (tokenizeAux fuel cs).map (fun ts => Tok.lparen :: ts)
  else if c = ')' then
    (tokenizeAux fuel cs).map (fun ts => Tok.rparen :: ts)
  else if c = ',' then
    (tokenizeAux fuel cs).map (fun ts => Tok.comma :: ts)
  else if isIdentStart c then
    let name := String.mk (c :: cs.takeWhile isIdentChar)
    (tokenizeAux fuel (cs.dropWhile isIdentChar)).map (fun ts => identTok name :: ts)
  else if isDigitChar c then
    let ds := c :: cs.takeWhile isDigitChar
    let rest := cs.dropWhile isDigitChar
    match rest with
    | '.' :: r2 =>
      let frac := r2.takeWhile isDigitChar
      let rest2 := r2.dropWhile isDigitChar
      (tokenizeAux fuel rest2).map
        (fun ts => Tok.lit (Lit.float (String.mk (ds ++ '.' :: frac))) :: ts)
    | _ =>
      (tokenizeAux fuel rest).map
        (fun ts => Tok.lit (Lit.int (Int.ofNat (digitsVal ds))) :: ts)
  else if c = '\'' || c = '"' then
    match scanString c cs with
    | some (s, rest) =>
      (tokenizeAux fuel rest).map (fun ts => Tok.lit (Lit.str (String.mk s)) :: ts)
    | none => none
  else none

/-- Tokenize a whole source string. -/
def tokenize (source : String) : Option (List Tok) :=
  tokenizeAux (source.toList.length + 1) source.toList

mutual

/-- Modelled from the spec: expressions of the host language's expression
grammar, as far as the tolerant best-effort pass accepts them - literals,
bare names, call expressions with arbitrary expression arguments, the two
boolean connectives and negation. -/
inductive PyExpr where
| lit (l : Lit)
| name (s : String)
| call (fn : String) (args : PyArgs)
| andE (lhs rhs : PyExpr)
| orE (lhs rhs : PyExpr)
| notE (e : PyExpr)

/-- Argument lists of host-language call expressions. -/
inductive PyArgs where
| nil
| cons (hd : PyExpr) (tl : PyArgs)

end

/-- Result of one recursive-descent step: either an expression or an
argument list, depending on the mode requested. -/
inductive PRes where
| expr (e : PyExpr)
| args (ar : PyArgs)

/-- Parser modes: a single term, a full expression, a comma-separated
argument list, or the left-associative connective continuation carrying
the expression accumulated so far. -/
inductive PMode where
| term
| expr
| args
| binRest (acc : PyExpr)

/-- Modelled from the spec: fuel-driven recursive-descent parser for the
host expression grammar.  A term is a literal, a bare name, a call with
full expressions as arguments, a parenthesised expression or a negation;
an expression is a term followed by a left-associative chain of boolean
connectives.  none signals a grammar violation. -/
def parseF : Nat → PMode → List Tok → Option (PRes × List Tok)
| 0, _, _ => none
| fuel + 1, PMode.term, ts =>
  match ts with
  | Tok.kwNot :: rest =>
    match parseF fuel PMode.term rest with
    | some (PRes.expr e, r) => some (PRes.expr (PyExpr.notE e), r)
    | _ => none
  | Tok.lparen :: rest =>
    match parseF fuel PMode.expr rest with
    | some (PRes.expr e, Tok.rparen :: r2) => some (PRes.expr e, r2)
    | _ => none
  | Tok.lit l :: rest => some (PRes.expr (PyExpr.lit l), rest)
  | Tok.ident fn :: Tok.lparen :: Tok.rparen :: rest =>
    some (PRes.expr (PyExpr.call fn PyArgs.nil), rest)
  | Tok.ident fn :: Tok.lparen :: rest =>
    match parseF fuel PMode.args rest with
    | some (PRes.args ar, Tok.rparen :: r2) => some (PRes.expr (PyExpr.call fn ar), r2)
    | _ => none
  | Tok.ident s :: rest => some (PRes.expr (PyExpr.name s), rest)
  | _ => none
| fuel + 1, PMode.expr, ts =>
  match parseF fuel PMode.term ts with
  | some (PRes.expr e, rest) => parseF fuel (PMode.binRest e) rest
  | _ => none
| fuel + 1, PMode.args, ts =>
  match parseF fuel PMode.expr ts with
  | some (PRes.expr e, Tok.comma :: rest) =>
    match parseF fuel PMode.args rest with
    | some (PRes.args ar, r2) => some (PRes.args (PyArgs.cons e ar), r2)
    | _ => none
  | some (PRes.expr e, rest) => some (PRes.args (PyArgs.cons e PyArgs.nil), rest)
  | _ => none
| fuel + 1, PMode.binRest acc, ts =>
  match ts with
  | Tok.kwAnd :: rest =>
    match parseF fuel PMode.term rest with
    | some (PRes.expr r, ts2) => parseF fuel (PMode.binRest (PyExpr.andE acc r)) ts2
    | _ => none
  | Tok.kwOr :: rest =>
    match parseF fuel PMode.term rest with
    | some (PRes.expr r, ts2) => parseF fuel (PMode.binRest (PyExpr.orE acc r)) ts2
    | _ => none
  | _ => some (PRes.expr acc, ts)

/-- Split a token stream into its newline-separated lines. -/
def splitOnNewline : List Tok → List (List Tok)
| [] => [[]]
| Tok.newline :: rest => [] :: splitOnNewline rest
| t :: rest =>
  match splitOnNewline rest with
  | [] => [[t]]
  | g :: gs => (t :: g) :: gs

/-- Parse one statement line: a single expression consuming every token of
the line. -/
def parseLine (ts : List Tok) : Option PyExpr :=
  match parseF (2 * ts.length + 2) PMode.expr ts with
  | some (PRes.expr e, []) => some e
  | _ => none

/-- Modelled from the spec: the host-language parser (Python ast.parse) as
used by both the tolerant extraction pass and the strict IQL parser - a
module is a newline-separated sequence of expression statements; none is
the host parser's SyntaxError (unbalanced parentheses, stray characters,
unterminated strings, malformed expressions). -/
def ast.parse (source : String) : Option (List PyExpr) :=
  match tokenize source with
  | none => none
  | some ts =>
    ((splitOnNewline ts).filter (fun g => !g.isEmpty)).mapM parseLine

mutual

/-- Collect every call's function name from an expression, in visit
order, including calls nested inside argument positions. -/
def collectCalls : PyExpr → List String
| PyExpr.lit _ => []
| PyExpr.name _ => []
| PyExpr.call fn args => fn :: collectCallsArgs args
| PyExpr.andE l r => collectCalls l ++ collectCalls r
| PyExpr.orE l r => collectCalls l ++ collectCalls r
| PyExpr.notE e => collectCalls e

/-- Collect call names from an argument list. -/
def collectCallsArgs : PyArgs → List String
| PyArgs.nil => []
| PyArgs.cons hd tl => collectCalls hd ++ collectCallsArgs tl

end

/-- Modelled from the spec: the MethodCallVisitor walk over a parsed host
module, returning the names of all call expressions it contains. -/
def MethodCallVisitor.get_method_calls : List PyExpr → List String
| [] => []
| e :: es => collectCalls e ++ MethodCallVisitor.get_method_calls es

/-- The best-effort tolerant extraction pass as a whole: host-parse the
text and collect all call names; none when the host parse fails. -/
def extractedNames (source : String) : Option (List String) :=
  match ast.parse source with
  | none => none
  | some tree => some (MethodCallVisitor.get_method_calls tree)





end DballyIQL

namespace DballyIQL

/-- Decidable equality for Except results, used to evaluate concrete
parse outcomes. -/
instance instDecEqExcept {ε α : Type} [DecidableEq ε] [DecidableEq α] :
    DecidableEq (Except ε α)
| Except.ok a, Except.ok b =>
  match decEq a b with
  | isTrue h => isTrue (by rw [h])
  | isFalse h => isFalse (by intro hc; cases hc; exact h rfl)
| Except.ok _, Except.error _ => isFalse (by intro hc; cases hc)
| Except.error _, Except.ok _ => isFalse (by intro hc; cases hc)
| Except.error a, Except.error b =>
  match decEq a b with
  | isTrue h => isTrue (by rw [h])
  | isFalse h => isFalse (by intro hc; cases hc; exact h rfl)

/-- Modelled from the spec: the error taxonomy surfaced by the strict IQL
parse-plus-validate pipeline.  The first three are the syntax-error kinds
named by the evaluation code's catch clause (the host parser's
SyntaxError, IQLError for grammar shapes outside the restricted IQL
grammar, and IQLUnsupportedSyntaxError for host constructs such as the or
connective); the remaining three are the semantic kinds produced by the
validator. -/
inductive IQLException where
| pySyntaxError
| iqlError
| iqlUnsupportedSyntaxError
| unsupportedOperation (name : String)
| arityMismatch (name : String)
| typeMismatch (name : String)
deriving DecidableEq

/-- Whether an error is one of the three syntax-error kinds listed by the
catch clause of calculate_syntax_errors. -/
def IQLException.isSyntaxKind : IQLException → Bool
| IQLException.pySyntaxError => true
| IQLException.iqlError => true
| IQLException.iqlUnsupportedSyntaxError => true
| _ => false

/-- Modelled from the spec: declared parameter types of an exposed
operation. -/
inductive ParamType where
| str
| int
| float
| bool
deriving DecidableEq

/-- Modelled from the spec: an exposed filter or action operation - a
name unique within the view and an ordered parameter-type
specification.  The free-text description and the optional
similarity-hint reference play no role in the claims and are omitted. -/
structure ExposedFunction where
  name : String
  params : List ParamType
deriving DecidableEq

/-- Modelled from the spec: one parsed invocation - the operation name as
written and its literal arguments. -/
structure ParsedCall where
  name : String
  args : List Lit
deriving DecidableEq

/-- Modelled from the spec: a parsed call after successful resolution
against the registry. -/
structure ValidatedCall where
  fn : ExposedFunction
  args : List Lit
deriving DecidableEq

/-- Require every argument of a host call to be a literal; a non-literal
argument is a nested expression, which the restricted IQL grammar rejects
as a grammar violation. -/
def litArgs : PyArgs → Except IQLException (List Lit)
| PyArgs.nil => Except.ok []
| PyArgs.cons (PyExpr.lit l) tl =>
  match litArgs tl with
  | Except.ok ls => Except.ok (l :: ls)
  | Except.error e => Except.error e
| PyArgs.cons _ _ => Except.error IQLException.iqlError

/-- Modelled from the spec: the strict filter grammar walk - a filter
expression is a conjunction of calls with literal arguments; the or
connective and negation are host constructs unsupported by IQL, and any
other shape is a grammar violation. -/
def exprToFilterCalls : PyExpr → Except IQLException (List ParsedCall)
| PyExpr.call fn args =>
  match litArgs args with
  | Except.ok ls => Except.ok [⟨fn, ls⟩]
  | Except.error e => Except.error e
| PyExpr.andE l r =>
  match exprToFilterCalls l with
  | Except.ok cl =>
    match exprToFilterCalls r with
    | Except.ok cr => Except.ok (cl ++ cr)
    | Except.error e => Except.error e
  | Except.error e => Except.error e
| PyExpr.orE _ _ => Except.error IQLException.iqlUnsupportedSyntaxError
| PyExpr.notE _ => Except.error IQLException.iqlUnsupportedSyntaxError
| PyExpr.lit _ => Except.error IQLException.iqlError
| PyExpr.name _ => Except.error IQLException.iqlError

/-- Modelled from the spec: the strict action grammar walk - each action
statement is a single call with literal arguments; the conjunction
keyword is not permitted in the action grammar. -/
def stmtToActionCall : PyExpr → Except IQLException ParsedCall
| PyExpr.call fn args =>
  match litArgs args with
  | Except.ok ls => Except.ok ⟨fn, ls⟩
  | Except.error e => Except.error e
| PyExpr.andE _ _ => Except.error IQLException.iqlUnsupportedSyntaxError
| PyExpr.orE _ _ => Except.error IQLException.iqlUnsupportedSyntaxError
| PyExpr.notE _ => Except.error IQLException.iqlUnsupportedSyntaxError
| PyExpr.lit _ => Except.error IQLException.iqlError
| PyExpr.name _ => Except.error IQLException.iqlError

/-- A literal can be coerced to a declared parameter type; an integer
literal is additionally accepted where a float is declared. -/
def litMatches : Lit → ParamType → Bool
| Lit.str _, ParamType.str => true
| Lit.int _, ParamType.int => true
| Lit.int _, ParamType.float => true
| Lit.float _, ParamType.float => true
| Lit.bool _, ParamType.bool => true
| _, _ => false

/-- Modelled from the spec: validate one parsed call against the registry
entries - unknown name, arity mismatch, then argument-type mismatch, in
that order. -/
def validateCall (c : ParsedCall) (fns : List ExposedFunction) : Except IQLException ValidatedCall :=
  match fns.find? (fun f => f.name == c.name) with
  | none => Except.error (IQLException.unsupportedOperation c.name)
  | some fn =>
    if c.args.length = fn.params.length then
      if (c.args.zip fn.params).all (fun p => litMatches p.1 p.2) then
        Except.ok ⟨fn, c.args⟩
      else Except.error (IQLException.typeMismatch c.name)
    else Except.error (IQLException.arityMismatch c.name)

/-- Validate a list of parsed calls in order, stopping at the first
error. -/
def validateCalls (cs : List ParsedCall) (fns : List ExposedFunction) :
    Except IQLException (List ValidatedCall) :=
  cs.mapM (fun c => validateCall c fns)

/-- Modelled from the spec: IQLQuery.parse - full parse plus validation
of a filters source against the allowed filter operations.  The host
parser runs first (its failure is the SyntaxError kind); the module must
be empty or a single conjunction-of-calls expression; every call is then
resolved against the registry. -/
def IQLQuery.parse (source : String) (allowed : List ExposedFunction) :
    Except IQLException (List ValidatedCall) :=
  match ast.parse source with
  | none => Except.error IQLException.pySyntaxError
  | some [] => validateCalls [] allowed
  | some [e] =>
    match exprToFilterCalls e with
    | Except.ok calls => validateCalls calls allowed
    | Except.error er => Except.error er
  | some _ => Except.error IQLException.iqlError

/-- Modelled from the spec: IQLActions.parse - full parse plus validation
of a newline-separated actions source against the allowed action
operations. -/
def IQLActions.parse (source : String) (allowed : List ExposedFunction) :
    Except IQLException (List ValidatedCall) :=
  match ast.parse source with
  | none => Except.error IQLException.pySyntaxError
  | some stmts =>
    match stmts.mapM stmtToActionCall with
    | Except.ok calls => validateCalls calls allowed
    | Except.error er => Except.error er

/-- Modelled from the spec: one evaluation record - the generated filters
text, the generated actions text and the ground truth.  The metric
functions read only the two generated texts. -/
structure IQLResult where
  ground_truth : String
  iql_filters : String
  iql_actions : String
deriving DecidableEq

end DballyIQL

namespace DballyIQL

/-- Translated from metrics.py: count the hallucinated call names and the
total call names of a single generated text.  The whole body runs under a
bare except clause, so a failure of the host parse yields the pair
(0, 0). -/
def _count_hallucinated_methods_for_single_example
    (iql : String) (allowed_methods : List String) : Nat × Nat :=
  match ast.parse iql with
  | none => (0, 0)
  | some tree =>
    let predicted_methods := MethodCallVisitor.get_method_calls tree
    (predicted_methods.foldl (fun acc m => if m ∈ allowed_methods then acc else acc + 1) 0,
     predicted_methods.length)

/-- Translated from metrics.py: sum the per-example hallucinated and
total filter-call counts over the dataset and divide once; the ratio is 0
when the summed denominator is 0. -/
def calculate_hallucinated_filters_for_dataset
    (dataset : List IQLResult) (filter_list : List ExposedFunction) : Rat :=
  let allowed_filters := filter_list.map ExposedFunction.name
  let totals := dataset.foldl
    (fun acc ex =>
      (acc.1 + (_count_hallucinated_methods_for_single_example ex.iql_filters allowed_filters).1,
       acc.2 + (_count_hallucinated_methods_for_single_example ex.iql_filters allowed_filters).2))
    ((0, 0) : Nat × Nat)
  if totals.2 = 0 then 0 else (totals.1 : Rat) / (totals.2 : Rat)

/-- Translated from metrics.py: the identical computation over the
actions texts and the allowed actions. -/
def calculate_hallucinated_actions_for_dataset
    (dataset : List IQLResult) (action_list : List ExposedFunction) : Rat :=
  let allowed_actions := action_list.map ExposedFunction.name
  let totals := dataset.foldl
    (fun acc ex =>
      (acc.1 + (_count_hallucinated_methods_for_single_example ex.iql_actions allowed_actions).1,
       acc.2 + (_count_hallucinated_methods_for_single_example ex.iql_actions allowed_actions).2))
    ((0, 0) : Nat × Nat)
  if totals.2 = 0 then 0 else (totals.1 : Rat) / (totals.2 : Rat)

/-- The try body shared by calculate_valid_iql and
calculate_syntax_errors: parse the filters text, then the actions text;
the first raised error aborts the pair. -/
def parseExample (filter_list action_list : List ExposedFunction)
    (ex : IQLResult) : Except IQLException Unit :=
  match IQLQuery.parse ex.iql_filters filter_list with
  | Except.error e => Except.error e
  | Except.ok _ =>
    match IQLActions.parse ex.iql_actions action_list with
    | Except.error e => Except.error e
    | Except.ok _ => Except.ok ()

/-- Python's true division, which raises ZeroDivisionError when the
divisor is 0; the fault is modelled as none. -/
def pyDiv (a b : Rat) : Option Rat :=
  if b = 0 then none else some (a / b)

/-- Translated from metrics.py: count the examples whose filters and
actions texts both parse and validate, then divide by the dataset length.
The division is unguarded in the source, so the empty dataset is a
ZeroDivisionError (none). -/
def calculate_valid_iql (dataset : List IQLResult)
    (filter_list action_list : List ExposedFunction) : Option Rat :=
  let valid_iql := dataset.foldl
    (fun acc ex => if (parseExample filter_list action_list ex).isOk then acc + 1 else acc)
    (0 : Nat)
  pyDiv (valid_iql : Rat) (dataset.length : Rat)

/-- Whether evaluating one example raises an error of one of the three
kinds listed by the catch clause of calculate_syntax_errors. -/
def countsAsSyntaxError (filter_list action_list : List ExposedFunction)
    (ex : IQLResult) : Bool :=
  match parseExample filter_list action_list ex with
  | Except.error e => e.isSyntaxKind
  | Except.ok _ => false

/-- Translated from metrics.py: count the examples whose evaluation
raises one of the three syntax-error kinds (any other raised error is
only logged), then divide by the dataset length.  The division is
unguarded in the source, so the empty dataset is a ZeroDivisionError
(none). -/
def calculate_syntax_errors (dataset : List IQLResult)
    (filter_list action_list : List ExposedFunction) : Option Rat :=
  let errs := dataset.foldl
    (fun acc ex => if countsAsSyntaxError filter_list action_list ex then acc + 1 else acc)
    (0 : Nat)
  pyDiv (errs : Rat) (dataset.length : Rat)

/-- Translated from metrics.py: assemble the summary mapping of the four
metric names to their values; a fault of either unguarded division
propagates. -/
def calculate_dataset_metrics (dataset : List IQLResult)
    (filter_list action_list : List ExposedFunction) : Option (List (String × Rat)) :=
  match calculate_valid_iql dataset filter_list action_list with
  | none => none
  | some v =>
    match calculate_syntax_errors dataset filter_list action_list with
    | none => none
    | some se =>
      some [(("valid_iql"), v),
            (("hallucinated_filters"), calculate_hallucinated_filters_for_dataset dataset filter_list),
            (("hallucinated_actions"), calculate_hallucinated_actions_for_dataset dataset action_list),
            (("syntax_errors"), se)]

/-- Spec-words counting for one text: the names extracted by the tolerant
pass that are absent from the allowed set, over the total extracted
names; an extraction failure contributes the pair (0, 0). -/
def specCounts (allowed : List String) (t : String) : Nat × Nat :=
  match extractedNames t with
  | none => (0, 0)
  | some ns => (ns.countP (fun m => decide (m ∉ allowed)), ns.length)

/-- Spec-words dataset numerator for the hallucinated-filter rate. -/
def filtersNum (dataset : List IQLResult) (filter_list : List ExposedFunction) : Nat :=
  (dataset.map (fun ex => (specCounts (filter_list.map ExposedFunction.name) ex.iql_filters).1)).sum

/-- Spec-words dataset denominator for the hallucinated-filter rate. -/
def filtersDen (dataset : List IQLResult) (filter_list : List ExposedFunction) : Nat :=
  (dataset.map (fun ex => (specCounts (filter_list.map ExposedFunction.name) ex.iql_filters).2)).sum

/-- Spec-words dataset numerator for the hallucinated-action rate. -/
def actionsNum (dataset : List IQLResult) (action_list : List ExposedFunction) : Nat :=
  (dataset.map (fun ex => (specCounts (action_list.map ExposedFunction.name) ex.iql_actions).1)).sum

/-- Spec-words dataset denominator for the hallucinated-action rate. -/
def actionsDen (dataset : List IQLResult) (action_list : List ExposedFunction) : Nat :=
  (dataset.map (fun ex => (specCounts (action_list.map ExposedFunction.name) ex.iql_actions).2)).sum

end DballyIQL

namespace DballyIQL

/-- Modelled from the spec: the filter operations the MockSqlAlchemyView
registers - method_foo with one integer parameter and method_bar with a
string and an integer parameter. -/
def MockSqlAlchemyView.filters : List ExposedFunction :=
  [⟨("method_foo"), [ParamType.int]⟩, ⟨("method_bar"), [ParamType.str, ParamType.int]⟩]

/-- Modelled from the spec: the action operations the MockSqlAlchemyView
registers - action_baz with no parameter and action_qux with one integer
parameter. -/
def MockSqlAlchemyView.actions : List ExposedFunction :=
  [⟨("action_baz"), []⟩, ⟨("action_qux"), [ParamType.int]⟩]

/-- Modelled from the spec: the view's base query, projecting a literal
column. -/
def mockBaseSelect : String := "SELECT 'test' AS foo"

/-- Modelled from the spec: the bound filter operations of the mock view,
returning the predicate fragment each contributes - method_foo(n) the
numeral itself and method_bar(city, year) the greeting literal of the
scenario.  none is a runtime invocation fault. -/
def mockFilterFragment : String → List Lit → Option String
| "method_foo", [Lit.int n] => some (toString n)
| "method_bar", [Lit.str city, Lit.int year] =>
  some ("'hello " ++ city ++ " in " ++ toString year ++ "'")
| _, _ => none

/-- Modelled from the spec: the bound action operations of the mock view,
each reshaping the accumulated query - action_baz imposes the ordering
and action_qux the result limit. -/
def mockApplyAction : String → List Lit → String → Option String
| "action_baz", [], q => some (q ++ " ORDER BY foo")
| "action_qux", [Lit.int n], q => some (q ++ " LIMIT " ++ toString n)
| _, _, _ => none

/-- Modelled from the spec: compile validated calls against the mock
view - every filter fragment is combined with AND onto the base query
(no WHERE clause when there are no filters), then the actions are applied
strictly left to right. -/
def compileMockQuery (fcalls acalls : List ValidatedCall) : Option String :=
  match fcalls.mapM (fun c => mockFilterFragment c.fn.name c.args) with
  | none => none
  | some frags =>
    let base :=
      if frags.isEmpty then mockBaseSelect
      else mockBaseSelect ++ " WHERE " ++ String.intercalate (" AND ") frags
    acalls.foldlM (fun q c => mockApplyAction c.fn.name c.args q) base

/-- Modelled from the spec: the runner pipeline of the scenario - parse
and validate the filters text and the actions text against the mock
view's registry, then compile the resulting calls into the final query
string. -/
def runnerGenerateSql (filtersText actionsText : String) : Except IQLException (Option String) :=
  match IQLQuery.parse filtersText MockSqlAlchemyView.filters with
  | Except.error e => Except.error e
  | Except.ok fcalls =>
    match IQLActions.parse actionsText MockSqlAlchemyView.actions with
    | Except.error e => Except.error e
    | Except.ok acalls => Except.ok (compileMockQuery fcalls acalls)









end DballyIQL

namespace DballyIQL

theorem foldl_count_if {α : Type} (p : α → Bool) (l : List α) :
    ∀ (n : Nat), l.foldl (fun acc x => if p x then acc + 1 else acc) n = n + l.countP p := by
  induction l with
  | nil => intro n; simp
  | cons x l ih =>
    intro n
    cases hp : p x
    all_goals simp [hp, List.countP_cons, ih]
    all_goals omega

theorem foldl_count_mem (allowed : List String) (l : List String) :
    ∀ (n : Nat), l.foldl (fun acc m => if m ∈ allowed then acc else acc + 1) n
      = n + l.countP (fun m => decide (m ∉ allowed)) := by
  induction l with
  | nil => intro n; simp
  | cons x l ih =>
    intro n
    by_cases hx : x ∈ allowed
    all_goals simp [hx, List.countP_cons, ih]
    all_goals omega

theorem foldl_pair_counts {α : Type} (g : α → Nat × Nat) (l : List α) :
    ∀ (p : Nat × Nat),
      l.foldl (fun acc x => (acc.1 + (g x).1, acc.2 + (g x).2)) p
        = (p.1 + (l.map (fun x => (g x).1)).sum, p.2 + (l.map (fun x => (g x).2)).sum) := by
  induction l with
  | nil => intro p; simp
  | cons x l ih =>
    intro p
    simp [ih, Prod.ext_iff]
    constructor <;> omega

theorem count_single_eq_specCounts (iql : String) (allowed : List String) :
    _count_hallucinated_methods_for_single_example iql allowed = specCounts allowed iql := by
  unfold _count_hallucinated_methods_for_single_example specCounts extractedNames
  cases ast.parse iql with
  | none => rfl
  | some tree => simp [foldl_count_mem]

theorem hallucinated_filters_char (dataset : List IQLResult) (filter_list : List ExposedFunction) :
    calculate_hallucinated_filters_for_dataset dataset filter_list =
      if filtersDen dataset filter_list = 0 then 0
      else (filtersNum dataset filter_list : Rat) / (filtersDen dataset filter_list : Rat) := by
  unfold calculate_hallucinated_filters_for_dataset filtersNum filtersDen
  dsimp only
  rw [foldl_pair_counts (fun ex => _count_hallucinated_methods_for_single_example ex.iql_filters
    (filter_list.map ExposedFunction.name)) dataset ((0, 0) : Nat × Nat)]
  simp [count_single_eq_specCounts]

theorem hallucinated_actions_char (dataset : List IQLResult) (action_list : List ExposedFunction) :
    calculate_hallucinated_actions_for_dataset dataset action_list =
      if actionsDen dataset action_list = 0 then 0
      else (actionsNum dataset action_list : Rat) / (actionsDen dataset action_list : Rat) := by
  unfold calculate_hallucinated_actions_for_dataset actionsNum actionsDen
  dsimp only
  rw [foldl_pair_counts (fun ex => _count_hallucinated_methods_for_single_example ex.iql_actions
    (action_list.map ExposedFunction.name)) dataset ((0, 0) : Nat × Nat)]
  simp [count_single_eq_specCounts]

theorem valid_iql_char (dataset : List IQLResult) (filter_list action_list : List ExposedFunction)
    (h : dataset ≠ []) :
    calculate_valid_iql dataset filter_list action_list =
      some ((dataset.countP (fun ex => (parseExample filter_list action_list ex).isOk) : Rat) /
        (dataset.length : Rat)) := by
  unfold calculate_valid_iql pyDiv
  rw [foldl_count_if (fun ex => (parseExample filter_list action_list ex).isOk) dataset 0]
  simp [Nat.cast_eq_zero, List.length_eq_zero, h]

theorem syntax_errors_char (dataset : List IQLResult) (filter_list action_list : List ExposedFunction)
    (h : dataset ≠ []) :
    calculate_syntax_errors dataset filter_list action_list =
      some ((dataset.countP (countsAsSyntaxError filter_list action_list) : Rat) /
        (dataset.length : Rat)) := by
  unfold calculate_syntax_errors pyDiv
  rw [foldl_count_if (countsAsSyntaxError filter_list action_list) dataset 0]
  simp [Nat.cast_eq_zero, List.length_eq_zero, h]

end DballyIQL

namespace DballyIQL

/-- The two generated texts of a record - the only data the metric
functions read. -/
def recordTexts (ex : IQLResult) : String × String := (ex.iql_filters, ex.iql_actions)

theorem foldl_texts_congr {β γ : Type} (g : IQLResult → γ) (b : β → γ → β) :
    ∀ (l1 l2 : List IQLResult), l1.map g = l2.map g → ∀ (init : β),
      l1.foldl (fun acc x => b acc (g x)) init = l2.foldl (fun acc x => b acc (g x)) init := by
  intro l1
  induction l1 with
  | nil =>
    intro l2 h init
    cases l2 with
    | nil => rfl
    | cons y l2 => simp at h
  | cons x l1 ih =>
    intro l2 h init
    cases l2 with
    | nil => simp at h
    | cons y l2 =>
      simp only [List.map_cons, List.cons.injEq] at h
      simp only [List.foldl_cons, h.1, ih l2 h.2]

theorem valid_iql_texts_congr (filter_list action_list : List ExposedFunction)
    (l1 l2 : List IQLResult) (h : l1.map recordTexts = l2.map recordTexts) :
    calculate_valid_iql l1 filter_list action_list = calculate_valid_iql l2 filter_list action_list := by
  have hlen : l1.length = l2.length := by simpa using congrArg List.length h
  have hfold : l1.foldl
      (fun acc ex => if (parseExample filter_list action_list ex).isOk then acc + 1 else acc) (0 : Nat)
      = l2.foldl
      (fun acc ex => if (parseExample filter_list action_list ex).isOk then acc + 1 else acc) (0 : Nat) :=
    foldl_texts_congr recordTexts
      (fun acc t => if (parseExample filter_list action_list ⟨(""), t.1, t.2⟩).isOk then acc + 1 else acc)
      l1 l2 h 0
  unfold calculate_valid_iql
  rw [hlen, hfold]

theorem syntax_errors_texts_congr (filter_list action_list : List ExposedFunction)
    (l1 l2 : List IQLResult) (h : l1.map recordTexts = l2.map recordTexts) :
    calculate_syntax_errors l1 filter_list action_list = calculate_syntax_errors l2 filter_list action_list := by
  have hlen : l1.length = l2.length := by simpa using congrArg List.length h
  have hfold : l1.foldl
      (fun acc ex => if countsAsSyntaxError filter_list action_list ex then acc + 1 else acc) (0 : Nat)
      = l2.foldl
      (fun acc ex => if countsAsSyntaxError filter_list action_list ex then acc + 1 else acc) (0 : Nat) :=
    foldl_texts_congr recordTexts
      (fun acc t => if countsAsSyntaxError filter_list action_list ⟨(""), t.1, t.2⟩ then acc + 1 else acc)
      l1 l2 h 0
  unfold calculate_syntax_errors
  rw [hlen, hfold]

theorem hallucinated_filters_texts_congr (filter_list : List ExposedFunction)
    (l1 l2 : List IQLResult) (h : l1.map recordTexts = l2.map recordTexts) :
    calculate_hallucinated_filters_for_dataset l1 filter_list
      = calculate_hallucinated_filters_for_dataset l2 filter_list := by
  have hfold : l1.foldl
      (fun acc ex =>
        (acc.1 + (_count_hallucinated_methods_for_single_example ex.iql_filters
            (filter_list.map ExposedFunction.name)).1,
         acc.2 + (_count_hallucinated_methods_for_single_example ex.iql_filters
            (filter_list.map ExposedFunction.name)).2)) ((0, 0) : Nat × Nat)
      = l2.foldl
      (fun acc ex =>
        (acc.1 + (_count_hallucinated_methods_for_single_example ex.iql_filters
            (filter_list.map ExposedFunction.name)).1,
         acc.2 + (_count_hallucinated_methods_for_single_example ex.iql_filters
            (filter_list.map ExposedFunction.name)).2)) ((0, 0) : Nat × Nat) :=
    foldl_texts_congr recordTexts
      (fun acc t =>
        (acc.1 + (_count_hallucinated_methods_for_single_example t.1
            (filter_list.map ExposedFunction.name)).1,
         acc.2 + (_count_hallucinated_methods_for_single_example t.1
            (filter_list.map ExposedFunction.name)).2))
      l1 l2 h ((0, 0) : Nat × Nat)
  unfold calculate_hallucinated_filters_for_dataset
  dsimp only
  rw [hfold]

theorem hallucinated_actions_texts_congr (action_list : List ExposedFunction)
    (l1 l2 : List IQLResult) (h : l1.map recordTexts = l2.map recordTexts) :
    calculate_hallucinated_actions_for_dataset l1 action_list
      = calculate_hallucinated_actions_for_dataset l2 action_list := by
  have hfold : l1.foldl
      (fun acc ex =>
        (acc.1 + (_count_hallucinated_methods_for_single_example ex.iql_actions
            (action_list.map ExposedFunction.name)).1,
         acc.2 + (_count_hallucinated_methods_for_single_example ex.iql_actions
            (action_list.map ExposedFunction.name)).2)) ((0, 0) : Nat × Nat)
      = l2.foldl
      (fun acc ex =>
        (acc.1 + (_count_hallucinated_methods_for_single_example ex.iql_actions
            (action_list.map ExposedFunction.name)).1,
         acc.2 + (_count_hallucinated_methods_for_single_example ex.iql_actions
            (action_list.map ExposedFunction.name)).2)) ((0, 0) : Nat × Nat) :=
    foldl_texts_congr recordTexts
      (fun acc t =>
        (acc.1 + (_count_hallucinated_methods_for_single_example t.2
            (action_list.map ExposedFunction.name)).1,
         acc.2 + (_count_hallucinated_methods_for_single_example t.2
            (action_list.map ExposedFunction.name)).2))
      l1 l2 h ((0, 0) : Nat × Nat)
  unfold calculate_hallucinated_actions_for_dataset
  dsimp only
  rw [hfold]

theorem dataset_metrics_texts_congr (filter_list action_list : List ExposedFunction)
    (l1 l2 : List IQLResult) (h : l1.map recordTexts = l2.map recordTexts) :
    calculate_dataset_metrics l1 filter_list action_list
      = calculate_dataset_metrics l2 filter_list action_list := by
  unfold calculate_dataset_metrics
  rw [valid_iql_texts_congr filter_list action_list l1 l2 h,
    syntax_errors_texts_congr filter_list action_list l1 l2 h,
    hallucinated_filters_texts_congr filter_list l1 l2 h,
    hallucinated_actions_texts_congr action_list l1 l2 h]

end DballyIQL

namespace DballyIQL

/-- Claim C1, counterexample: the claim asserts that every metric function
returns 0 on the empty dataset with no division fault, but the divisions
of calculate_valid_iql and calculate_syntax_errors are unguarded, so on
the empty dataset both raise ZeroDivisionError (modelled as none) instead
of returning the ratio 0. -/
theorem c1_empty_dataset_division_fault :
    calculate_valid_iql [] [] [] = none ∧
    calculate_valid_iql [] [] [] ≠ some 0 ∧
    calculate_syntax_errors [] [] [] = none ∧
    calculate_syntax_errors [] [] [] ≠ some 0 := by
  with_unfolding_all decide

/-- Claim C1, amended: the two hallucination ratios are 0 whenever their
summed denominator is 0 - in particular on the empty dataset - while the
valid-IQL and syntax-error rates, whose divisions by the dataset length
are unguarded, fault on the empty dataset and return a value on every
nonempty dataset. -/
theorem c1_zero_denominator_behaviour
    (filter_list action_list : List ExposedFunction) (dataset : List IQLResult) :
    (filtersDen dataset filter_list = 0 →
      calculate_hallucinated_filters_for_dataset dataset filter_list = 0) ∧
    (actionsDen dataset action_list = 0 →
      calculate_hallucinated_actions_for_dataset dataset action_list = 0) ∧
    calculate_hallucinated_filters_for_dataset [] filter_list = 0 ∧
    calculate_hallucinated_actions_for_dataset [] action_list = 0 ∧
    calculate_valid_iql [] filter_list action_list = none ∧
    calculate_syntax_errors [] filter_list action_list = none ∧
    (dataset ≠ [] →
      (∃ q, calculate_valid_iql dataset filter_list action_list = some q) ∧
      (∃ q, calculate_syntax_errors dataset filter_list action_list = some q)) := by
  refine ⟨?_, ?_, ?_, ?_, ?_, ?_, ?_⟩
  · intro h
    rw [hallucinated_filters_char, if_pos h]
  · intro h
    rw [hallucinated_actions_char, if_pos h]
  · rw [hallucinated_filters_char]
    simp [filtersDen]
  · rw [hallucinated_actions_char]
    simp [actionsDen]
  · simp [calculate_valid_iql, pyDiv]
  · simp [calculate_syntax_errors, pyDiv]
  · intro h
    exact ⟨⟨_, valid_iql_char dataset filter_list action_list h⟩,
      ⟨_, syntax_errors_char dataset filter_list action_list h⟩⟩

/-- Witness for c1_zero_denominator_behaviour at a concrete one-record
dataset whose texts extract zero calls. -/
theorem c1_zero_denominator_behaviour_witness :
    filtersDen [⟨("q"), (""), ("")⟩] [] = 0 ∧
    calculate_hallucinated_filters_for_dataset [⟨("q"), (""), ("")⟩] [] = 0 ∧
    ([⟨("q"), (""), ("")⟩] : List IQLResult) ≠ [] ∧
    (∃ q, calculate_valid_iql [⟨("q"), (""), ("")⟩] [] [] = some q) := by
  refine ⟨by with_unfolding_all decide, ?_, by with_unfolding_all decide, ?_⟩
  · exact (c1_zero_denominator_behaviour [] [] [⟨("q"), (""), ("")⟩]).1
      (by with_unfolding_all decide)
  · exact ((c1_zero_denominator_behaviour [] [] [⟨("q"), (""), ("")⟩]).2.2.2.2.2.2
      (by with_unfolding_all decide)).1

/-- Claim C2: on every nonempty dataset the syntax-error rate is the count
of examples whose evaluation fails with one of the three syntax-error
kinds, divided by the dataset length, and an example counts exactly when
its parse-plus-validate outcome is an error of syntax kind - a
semantic-kind error (unknown operation, arity mismatch, type mismatch)
never counts. -/
theorem c2_syntax_error_rate_counts_syntax_kinds
    (dataset : List IQLResult) (filter_list action_list : List ExposedFunction)
    (h : dataset ≠ []) :
    calculate_syntax_errors dataset filter_list action_list =
      some ((dataset.countP (countsAsSyntaxError filter_list action_list) : Rat) /
        (dataset.length : Rat)) ∧
    ∀ ex, countsAsSyntaxError filter_list action_list ex = true ↔
      ∃ e, parseExample filter_list action_list ex = Except.error e ∧ e.isSyntaxKind = true := by
  refine ⟨syntax_errors_char dataset filter_list action_list h, ?_⟩
  intro ex
  unfold countsAsSyntaxError
  cases hp : parseExample filter_list action_list ex with
  | ok _ => simp
  | error e => simp

/-- Witness for c2_syntax_error_rate_counts_syntax_kinds on a one-record
dataset whose filters text has an unbalanced parenthesis. -/
theorem c2_syntax_error_rate_witness :
    ([⟨("q"), ("method_foo(1"), ("")⟩] : List IQLResult) ≠ [] ∧
    (calculate_syntax_errors [⟨("q"), ("method_foo(1"), ("")⟩] [] [] =
      some (((List.countP (countsAsSyntaxError [] [])
          ([⟨("q"), ("method_foo(1"), ("")⟩] : List IQLResult) : Nat) : Rat) /
        ((List.length ([⟨("q"), ("method_foo(1"), ("")⟩] : List IQLResult) : Nat) : Rat)) ∧
    ∀ ex, countsAsSyntaxError [] [] ex = true ↔
      ∃ e, parseExample [] [] ex = Except.error e ∧ e.isSyntaxKind = true) := by
  refine ⟨by with_unfolding_all decide, ?_⟩
  exact c2_syntax_error_rate_counts_syntax_kinds [⟨("q"), ("method_foo(1"), ("")⟩] [] []
    (by with_unfolding_all decide)

end DballyIQL

namespace DballyIQL

/-- Claim C3: each hallucination rate is the dataset-wide sum of
per-example counts of extracted call names absent from the allowed name
set, divided by the dataset-wide sum of per-example extracted-call
totals (0 when that denominator is 0), where per-example counts come
from the best-effort tolerant extraction - an example whose extraction
fails contributes the pair (0, 0), and one whose extraction succeeds
contributes its full name counts regardless of strict validation. -/
theorem c3_hallucination_rates_formula
    (dataset : List IQLResult) (filter_list action_list : List ExposedFunction) :
    (calculate_hallucinated_filters_for_dataset dataset filter_list =
      if filtersDen dataset filter_list = 0 then 0
      else (filtersNum dataset filter_list : Rat) / (filtersDen dataset filter_list : Rat)) ∧
    (calculate_hallucinated_actions_for_dataset dataset action_list =
      if actionsDen dataset action_list = 0 then 0
      else (actionsNum dataset action_list : Rat) / (actionsDen dataset action_list : Rat)) ∧
    (∀ t allowed, extractedNames t = none → specCounts allowed t = (0, 0)) ∧
    (∀ t allowed ns, extractedNames t = some ns →
      specCounts allowed t = (ns.countP (fun m => decide (m ∉ allowed)), ns.length)) := by
  refine ⟨hallucinated_filters_char dataset filter_list,
    hallucinated_actions_char dataset action_list, ?_, ?_⟩
  · intro t allowed hnone
    unfold specCounts
    rw [hnone]
  · intro t allowed ns hsome
    unfold specCounts
    rw [hsome]

/-- Witness for c3_hallucination_rates_formula on a one-record dataset
with one hallucinated filter out of two extracted calls. -/
theorem c3_hallucination_rates_formula_witness :
    (calculate_hallucinated_filters_for_dataset
        [⟨("q"), ("bad_method(1) and method_bar('Paris', 5)"), ("")⟩] MockSqlAlchemyView.filters =
      if filtersDen [⟨("q"), ("bad_method(1) and method_bar('Paris', 5)"), ("")⟩]
          MockSqlAlchemyView.filters = 0 then 0
      else (filtersNum [⟨("q"), ("bad_method(1) and method_bar('Paris', 5)"), ("")⟩]
          MockSqlAlchemyView.filters : Rat) /
        (filtersDen [⟨("q"), ("bad_method(1) and method_bar('Paris', 5)"), ("")⟩]
          MockSqlAlchemyView.filters : Rat)) ∧
    extractedNames ("bad(") = none ∧
    specCounts [] ("bad(") = (0, 0) ∧
    calculate_hallucinated_filters_for_dataset
      [⟨("q"), ("bad_method(1) and method_bar('Paris', 5)"), ("")⟩] MockSqlAlchemyView.filters
      = 1 / 2 := by
  refine ⟨(c3_hallucination_rates_formula
      [⟨("q"), ("bad_method(1) and method_bar('Paris', 5)"), ("")⟩]
      MockSqlAlchemyView.filters MockSqlAlchemyView.actions).1,
    by with_unfolding_all decide,
    (c3_hallucination_rates_formula [] MockSqlAlchemyView.filters MockSqlAlchemyView.actions).2.2.1
      ("bad(") [] (by with_unfolding_all decide),
    by with_unfolding_all decide⟩

/-- Claim C4: on every nonempty dataset the valid-IQL rate is the count of
examples whose filters text and actions text both pass full parse plus
validation, divided by the dataset length; an example counts exactly when
both parses return a success. -/
theorem c4_valid_iql_rate (dataset : List IQLResult)
    (filter_list action_list : List ExposedFunction) (h : dataset ≠ []) :
    calculate_valid_iql dataset filter_list action_list =
      some ((dataset.countP (fun ex => (parseExample filter_list action_list ex).isOk) : Rat) /
        (dataset.length : Rat)) ∧
    ∀ ex, (parseExample filter_list action_list ex).isOk = true ↔
      ((IQLQuery.parse ex.iql_filters filter_list).isOk = true ∧
       (IQLActions.parse ex.iql_actions action_list).isOk = true) := by
  refine ⟨valid_iql_char dataset filter_list action_list h, ?_⟩
  intro ex
  unfold parseExample
  cases h1 : IQLQuery.parse ex.iql_filters filter_list with
  | error e => simp [Except.isOk, Except.toBool]
  | ok _ =>
    cases h2 : IQLActions.parse ex.iql_actions action_list with
    | error e => simp [Except.isOk, Except.toBool]
    | ok _ => simp [Except.isOk, Except.toBool]

/-- Witness for c4_valid_iql_rate on a concrete two-record dataset, one
record valid and one not. -/
theorem c4_valid_iql_rate_witness :
    ([⟨("q"), (""), ("")⟩, ⟨("q"), ("bad_method(1)"), ("")⟩] : List IQLResult) ≠ [] ∧
    (calculate_valid_iql [⟨("q"), (""), ("")⟩, ⟨("q"), ("bad_method(1)"), ("")⟩]
        MockSqlAlchemyView.filters MockSqlAlchemyView.actions =
      some (((List.countP
          (fun ex => (parseExample MockSqlAlchemyView.filters MockSqlAlchemyView.actions ex).isOk)
          ([⟨("q"), (""), ("")⟩, ⟨("q"), ("bad_method(1)"), ("")⟩] : List IQLResult) : Nat) : Rat) /
        ((List.length ([⟨("q"), (""), ("")⟩, ⟨("q"), ("bad_method(1)"), ("")⟩] : List IQLResult) : Nat) : Rat)) ∧
    ∀ ex, (parseExample MockSqlAlchemyView.filters MockSqlAlchemyView.actions ex).isOk = true ↔
      ((IQLQuery.parse ex.iql_filters MockSqlAlchemyView.filters).isOk = true ∧
       (IQLActions.parse ex.iql_actions MockSqlAlchemyView.actions).isOk = true)) := by
  refine ⟨by with_unfolding_all decide, ?_⟩
  exact c4_valid_iql_rate [⟨("q"), (""), ("")⟩, ⟨("q"), ("bad_method(1)"), ("")⟩]
    MockSqlAlchemyView.filters MockSqlAlchemyView.actions (by with_unfolding_all decide)

/-- Claim C5: the hallucination rates aggregate by summing per-example
numerators and denominators across the dataset and dividing once, so for
any two datasets the rate of their concatenation is the sum of their
numerators over the sum of their denominators (whenever that combined
denominator is positive), and both spec-level sums are additive under
concatenation. -/
theorem c5_ratio_aggregation_concat (d1 d2 : List IQLResult)
    (filter_list action_list : List ExposedFunction) :
    (0 < filtersDen (d1 ++ d2) filter_list →
      calculate_hallucinated_filters_for_dataset (d1 ++ d2) filter_list =
        ((filtersNum d1 filter_list + filtersNum d2 filter_list : Nat) : Rat) /
          ((filtersDen d1 filter_list + filtersDen d2 filter_list : Nat) : Rat)) ∧
    (0 < actionsDen (d1 ++ d2) action_list →
      calculate_hallucinated_actions_for_dataset (d1 ++ d2) action_list =
        ((actionsNum d1 action_list + actionsNum d2 action_list : Nat) : Rat) /
          ((actionsDen d1 action_list + actionsDen d2 action_list : Nat) : Rat)) ∧
    filtersNum (d1 ++ d2) filter_list = filtersNum d1 filter_list + filtersNum d2 filter_list ∧
    filtersDen (d1 ++ d2) filter_list = filtersDen d1 filter_list + filtersDen d2 filter_list ∧
    actionsNum (d1 ++ d2) action_list = actionsNum d1 action_list + actionsNum d2 action_list ∧
    actionsDen (d1 ++ d2) action_list = actionsDen d1 action_list + actionsDen d2 action_list := by
  have hfn : filtersNum (d1 ++ d2) filter_list
      = filtersNum d1 filter_list + filtersNum d2 filter_list := by
    unfold filtersNum
    rw [List.map_append, List.sum_append]
  have hfd : filtersDen (d1 ++ d2) filter_list
      = filtersDen d1 filter_list + filtersDen d2 filter_list := by
    unfold filtersDen
    rw [List.map_append, List.sum_append]
  have han : actionsNum (d1 ++ d2) action_list
      = actionsNum d1 action_list + actionsNum d2 action_list := by
    unfold actionsNum
    rw [List.map_append, List.sum_append]
  have had : actionsDen (d1 ++ d2) action_list
      = actionsDen d1 action_list + actionsDen d2 action_list := by
    unfold actionsDen
    rw [List.map_append, List.sum_append]
  refine ⟨?_, ?_, hfn, hfd, han, had⟩
  · intro hpos
    rw [hallucinated_filters_char, if_neg (by omega), hfn, hfd]
  · intro hpos
    rw [hallucinated_actions_char, if_neg (by omega), han, had]

/-- Witness for c5_ratio_aggregation_concat on two concrete one-record
datasets with different per-record call counts. -/
theorem c5_ratio_aggregation_concat_witness :
    0 < filtersDen ([⟨("q"), ("bad_method(1)"), ("")⟩] ++
        [⟨("q"), ("method_foo(1) and method_bar('x', 2)"), ("")⟩]) MockSqlAlchemyView.filters ∧
    calculate_hallucinated_filters_for_dataset
        ([⟨("q"), ("bad_method(1)"), ("")⟩] ++
          [⟨("q"), ("method_foo(1) and method_bar('x', 2)"), ("")⟩]) MockSqlAlchemyView.filters =
      ((filtersNum [⟨("q"), ("bad_method(1)"), ("")⟩] MockSqlAlchemyView.filters +
          filtersNum [⟨("q"), ("method_foo(1) and method_bar('x', 2)"), ("")⟩]
            MockSqlAlchemyView.filters : Nat) : Rat) /
        ((filtersDen [⟨("q"), ("bad_method(1)"), ("")⟩] MockSqlAlchemyView.filters +
          filtersDen [⟨("q"), ("method_foo(1) and method_bar('x', 2)"), ("")⟩]
            MockSqlAlchemyView.filters : Nat) : Rat) := by
  refine ⟨by with_unfolding_all decide, ?_⟩
  exact (c5_ratio_aggregation_concat [⟨("q"), ("bad_method(1)"), ("")⟩]
    [⟨("q"), ("method_foo(1) and method_bar('x', 2)"), ("")⟩]
    MockSqlAlchemyView.filters MockSqlAlchemyView.actions).1 (by with_unfolding_all decide)

/-- Claim C6: the best-effort extraction never raises - in the model it
is a total function - and when the host parse of a text fails, the
per-example counting returns the pair (0, 0), contributing zero to both
the hallucinated count and the total count. -/
theorem c6_extraction_failure_contributes_zero (iql : String) (allowed : List String)
    (h : extractedNames iql = none) :
    _count_hallucinated_methods_for_single_example iql allowed = (0, 0) := by
  rw [count_single_eq_specCounts]
  unfold specCounts
  rw [h]

/-- Witness for c6_extraction_failure_contributes_zero on a concrete
malformed text. -/
theorem c6_extraction_failure_witness :
    extractedNames ("method_foo((") = none ∧
    _count_hallucinated_methods_for_single_example ("method_foo((") [("method_foo")] = (0, 0) := by
  refine ⟨by with_unfolding_all decide, ?_⟩
  exact c6_extraction_failure_contributes_zero ("method_foo((") [("method_foo")]
    (by with_unfolding_all decide)

end DballyIQL

namespace DballyIQL

/-- Claim C7: a one-record dataset whose filters text has an unbalanced
parenthesis fails strict parsing with the host SyntaxError kind, so the
syntax-error rate of the record is counted (rate 1 for the singleton
dataset), while the best-effort extraction on the malformed text fails
and contributes the pair (0, 0), leaving the hallucinated-filter rate at
0. -/
theorem c7_unbalanced_paren_scenario :
    IQLQuery.parse ("method_foo(1 and method_bar('London', 2020)") MockSqlAlchemyView.filters
      = Except.error IQLException.pySyntaxError ∧
    IQLException.pySyntaxError.isSyntaxKind = true ∧
    calculate_syntax_errors
      [⟨("q"), ("method_foo(1 and method_bar('London', 2020)"), ("action_baz()")⟩]
      MockSqlAlchemyView.filters MockSqlAlchemyView.actions = some 1 ∧
    extractedNames ("method_foo(1 and method_bar('London', 2020)") = none ∧
    _count_hallucinated_methods_for_single_example
      ("method_foo(1 and method_bar('London', 2020)")
      (MockSqlAlchemyView.filters.map ExposedFunction.name) = (0, 0) ∧
    calculate_hallucinated_filters_for_dataset
      [⟨("q"), ("method_foo(1 and method_bar('London', 2020)"), ("action_baz()")⟩]
      MockSqlAlchemyView.filters = 0 := by
  with_unfolding_all decide

/-- Claim C8: against the mock registry, the scenario filters text
validates as 2 filter calls and the actions text as 2 action calls, and
compiling through the runner yields exactly the scenario's final query
string. -/
theorem c8_mock_runner_scenario :
    (IQLQuery.parse ("method_foo(1) and method_bar('London', 2020)")
      MockSqlAlchemyView.filters).map List.length = Except.ok 2 ∧
    (IQLActions.parse ("action_baz()\naction_qux(5)")
      MockSqlAlchemyView.actions).map List.length = Except.ok 2 ∧
    runnerGenerateSql ("method_foo(1) and method_bar('London', 2020)")
        ("action_baz()\naction_qux(5)") =
      Except.ok (some ("SELECT 'test' AS foo WHERE 1 AND 'hello London in 2020' ORDER BY foo LIMIT 5")) := by
  with_unfolding_all decide

/-- Claim C9: on every nonempty dataset the metric computation returns a
pure summary mapping the four metric names to the values of the four
metric functions on the input dataset, and the whole computation depends
only on the per-record generated texts - any dataset with the same
record texts yields the same summary, so no record is consulted beyond
its two read-only text fields and none is mutated (the embedding of the
source contains no write to the dataset). -/
theorem c9_metrics_pure_summary (dataset : List IQLResult)
    (filter_list action_list : List ExposedFunction) (h : dataset ≠ []) :
    (∃ v se, calculate_valid_iql dataset filter_list action_list = some v ∧
      calculate_syntax_errors dataset filter_list action_list = some se ∧
      calculate_dataset_metrics dataset filter_list action_list =
        some [(("valid_iql"), v),
              (("hallucinated_filters"), calculate_hallucinated_filters_for_dataset dataset filter_list),
              (("hallucinated_actions"), calculate_hallucinated_actions_for_dataset dataset action_list),
              (("syntax_errors"), se)]) ∧
    (∀ ds', ds'.map recordTexts = dataset.map recordTexts →
      calculate_dataset_metrics ds' filter_list action_list =
        calculate_dataset_metrics dataset filter_list action_list) := by
  constructor
  · refine ⟨_, _, valid_iql_char dataset filter_list action_list h,
      syntax_errors_char dataset filter_list action_list h, ?_⟩
    unfold calculate_dataset_metrics
    rw [valid_iql_char dataset filter_list action_list h,
      syntax_errors_char dataset filter_list action_list h]
  · intro ds' h'
    exact dataset_metrics_texts_congr filter_list action_list ds' dataset h'

/-- Witness for c9_metrics_pure_summary on a concrete one-record
dataset. -/
theorem c9_metrics_pure_summary_witness :
    ([⟨("q"), (""), ("")⟩] : List IQLResult) ≠ [] ∧
    (∃ v se, calculate_valid_iql [⟨("q"), (""), ("")⟩] [] [] = some v ∧
      calculate_syntax_errors [⟨("q"), (""), ("")⟩] [] [] = some se ∧
      calculate_dataset_metrics [⟨("q"), (""), ("")⟩] [] [] =
        some [(("valid_iql"), v),
              (("hallucinated_filters"),
                calculate_hallucinated_filters_for_dataset [⟨("q"), (""), ("")⟩] []),
              (("hallucinated_actions"),
                calculate_hallucinated_actions_for_dataset [⟨("q"), (""), ("")⟩] []),
              (("syntax_errors"), se)]) ∧
    calculate_dataset_metrics [⟨("other"), (""), ("")⟩] [] [] =
      calculate_dataset_metrics [⟨("q"), (""), ("")⟩] [] [] := by
  have main := c9_metrics_pure_summary [⟨("q"), (""), ("")⟩] [] []
    (by with_unfolding_all decide)
  exact ⟨by with_unfolding_all decide, main.1,
    main.2 [⟨("other"), (""), ("")⟩] (by with_unfolding_all decide)⟩

/-- Claim C10 (implicit): the tolerant counting pass parses with the full
host expression grammar, so any text it parses contributes its full
extracted name counts even when the restricted IQL grammar rejects the
text - demonstrated on a text using the or connective and a nested call,
which the strict parser rejects with a syntax-kind error while the same
record still contributes 2 hallucinated names out of 3 extracted calls,
so one record counts toward the syntax-error rate and the hallucination
rate at once. -/
theorem c10_tolerant_pass_uses_host_grammar :
    (∀ iql allowed ns, extractedNames iql = some ns →
      _count_hallucinated_methods_for_single_example iql allowed
        = (ns.countP (fun m => decide (m ∉ allowed)), ns.length)) ∧
    (extractedNames ("method_foo(1) or bad(inner(2))")
        = some [("method_foo"), ("bad"), ("inner")] ∧
      IQLQuery.parse ("method_foo(1) or bad(inner(2))") MockSqlAlchemyView.filters
        = Except.error IQLException.iqlUnsupportedSyntaxError ∧
      IQLException.iqlUnsupportedSyntaxError.isSyntaxKind = true ∧
      calculate_hallucinated_filters_for_dataset
        [⟨("q"), ("method_foo(1) or bad(inner(2))"), ("")⟩] MockSqlAlchemyView.filters = 2 / 3 ∧
      calculate_syntax_errors [⟨("q"), ("method_foo(1) or bad(inner(2))"), ("")⟩]
        MockSqlAlchemyView.filters MockSqlAlchemyView.actions = some 1) := by
  constructor
  · intro iql allowed ns hsome
    rw [count_single_eq_specCounts]
    unfold specCounts
    rw [hsome]
  · with_unfolding_all decide

/-- Witness for c10_tolerant_pass_uses_host_grammar, instantiating its
universal part on a concrete two-statement text. -/
theorem c10_tolerant_pass_witness :
    extractedNames ("foo(1)\nbar(2)") = some [("foo"), ("bar")] ∧
    _count_hallucinated_methods_for_single_example ("foo(1)\nbar(2)") [("foo")]
      = (List.countP (fun m => decide (m ∉ [("foo")])) [("foo"), ("bar")],
         List.length [("foo"), ("bar")]) := by
  refine ⟨by with_unfolding_all decide, ?_⟩
  exact c10_tolerant_pass_uses_host_grammar.1 ("foo(1)\nbar(2)") [("foo")]
    [("foo"), ("bar")] (by with_unfolding_all decide)

end DballyIQL

namespace DballyIQL

/-- Claim C9, counterexample: on the empty dataset the computation faults
in the unguarded division before any summary record is produced, so the
claim's promise of a summary result for every dataset fails. -/
theorem c9_empty_dataset_no_summary :
    calculate_dataset_metrics [] [] [] = none := by
  with_unfolding_all decide

end DballyIQL
